import Mathlib

/-!
Verification of the UniversalCompiler command-builder core and its
persistence stores, as a shallow embedding of `UniversalCompiler.py`.

Conventions of the embedding:
* The filesystem is abstract: a list of existing paths (`Env.files`), and for
  size queries a list of `(path, byte size)` pairs.  Path joining is modelled
  with the separator "/" (the Python code mixes `os.path.join` and `pathlib`
  joins; the separator itself is irrelevant to every property proved here).
* An external process run (`subprocess.run`) is modelled by `ProcOutcome`:
  either the process ran and produced an exit code with captured stdout and
  stderr, or the attempt to spawn it raised an exception carrying a message.
  Every spawn attempt is recorded in a trace.
* Python exceptions that a function does not catch are modelled by
  `Except.error`; values returned normally are `Except.ok`.
-/

set_option autoImplicit false

/-- Outcome of an attempt to execute an external process, as observed by
`subprocess.run`: either the process ran to completion with an exit code and
captured output streams, or an exception was raised while spawning it. -/
inductive ProcOutcome where
  | ok (returncode : Int) (stdout stderr : String)
  | exn (msg : String)

/-- `run_command` from `UniversalCompiler.py`: runs a command and returns
`(success, output)`.  Success is exit code zero; stdout and stderr are
concatenated; any exception raised while spawning is caught and its message
returned with `success = false`. -/
def run_command (outcome : ProcOutcome) : Bool × String :=
  match outcome with
  | .ok returncode stdout stderr => (returncode == 0, stdout ++ stderr)
  | .exn e => (false, e)

/-- Model of path joining (`os.path.join` / `pathlib` `/`), with the
separator abstracted to "/". -/
def pjoin (a b : String) : String := a ++ "/" ++ b

/-- Splits a character list on a separator character (a structurally
recursive model of `str.split`). -/
def splitOnChar (sep : Char) : List Char → List (List Char)
  | [] => [[]]
  | c :: cs =>
    let r := splitOnChar sep cs
    if c == sep then [] :: r
    else
      match r with
      | [] => [[c]]
      | h :: t => (c :: h) :: t

/-- Model of `os.path.basename`: the part after the last separator. -/
def basename (p : String) : String :=
  String.mk ((splitOnChar '/' p.toList).getLastD [])

/-- Model of `os.path.dirname`: everything before the last separator. -/
def dirname (p : String) : String :=
  String.mk (List.intercalate ['/'] (splitOnChar '/' p.toList).dropLast)

/-- Model of `os.path.splitext(name)[0]`: drops the extension after the last
dot, except that a name consisting only of leading dots before that last dot
(such as ".bashrc") is kept whole. -/
def splitext_root (name : String) : String :=
  let cs := name.toList
  match cs.reverse.findIdx? (fun c => c == '.') with
  | none => name
  | some r =>
    let i := cs.length - 1 - r
    if (cs.take i).all (fun c => c == '.') then name
    else String.mk (cs.take i)

/-- One-decimal rendering of `num / den`, modelling Python's `"%.1f"`
formatting of the quotient (rounding to the nearest tenth). -/
def oneDecimal (num den : Int) : String :=
  let t : Int := round ((num : ℚ) * 10 / (den : ℚ))
  toString (t / 10) ++ "." ++ toString (t % 10)

/-- `format_size` from `UniversalCompiler.py`: human-readable size with the
largest unit whose threshold the value clears, one decimal place. -/
def format_size (size : Int) : String :=
  if size ≥ 1073741824 then oneDecimal size 1073741824 ++ " GB"
  else if size ≥ 1048576 then oneDecimal size 1048576 ++ " MB"
  else if size ≥ 1024 then oneDecimal size 1024 ++ " KB"
  else toString size ++ " bytes"

/-- The `estimates` table inside `estimate_output_size`: per file type a
`(base_overhead_bytes, multiplier)` pair.  Multipliers are modelled as exact
rationals. -/
def estimates (file_type : String) : Option (Int × ℚ) :=
  if file_type = "ps1" then some (5 * 1024 * 1024, 1.5)
  else if file_type = "py" then some (15 * 1024 * 1024, 2)
  else if file_type = "bat" then some (50 * 1024, 1.2)
  else if file_type = "cmd" then some (50 * 1024, 1.2)
  else if file_type = "js" then some (40 * 1024 * 1024, 1.5)
  else if file_type = "vbs" then some (50 * 1024, 1.2)
  else if file_type = "ahk" then some (1 * 1024 * 1024, 1.3)
  else if file_type = "cs" then some (10 * 1024, 1.1)
  else if file_type = "go" then some (2 * 1024 * 1024, 1.2)
  else if file_type = "rb" then some (20 * 1024 * 1024, 2)
  else none

/-- `estimate_output_size` from `UniversalCompiler.py`.  The filesystem is
abstracted to an association list from existing paths to their byte sizes;
`os.path.exists` failing is `lookup = none`.  `int(...)` truncation of the
non-negative estimate is the floor. -/
def estimate_output_size (fs : List (String × Nat)) (source_file file_type : String) : String :=
  match fs.lookup source_file with
  | none => "Unknown"
  | some source_size =>
    match estimates file_type with
    | some be => format_size (Int.floor ((be.1 : ℚ) + (source_size : ℚ) * be.2))
    | none => "Unknown"

/-- C3: for every command, `run_command` succeeds exactly when the process
exits with status zero (regardless of captured text), returns stdout and
stderr concatenated into one string, and converts a spawn exception into
`(false, message)` instead of propagating it. -/
theorem run_command_spec (c : Int) (out err m : String) :
    ((run_command (ProcOutcome.ok c out err)).1 = true ↔ c = 0)
    ∧ (run_command (ProcOutcome.ok c out err)).2 = out ++ err
    ∧ run_command (ProcOutcome.exn m) = (false, m) := by
  refine ⟨?_, rfl, rfl⟩
  simp [run_command]

/-- Witness for `run_command_spec` at a concrete exit code and texts. -/
theorem run_command_spec_witness :
    ((run_command (ProcOutcome.ok 0 "out" "err")).1 = true ↔ (0 : Int) = 0)
    ∧ (run_command (ProcOutcome.ok 0 "out" "err")).2 = "out" ++ "err"
    ∧ run_command (ProcOutcome.exn "boom") = (false, "boom") :=
  run_command_spec 0 "out" "err" "boom"

/-- C7: when the source file exists and its type has a registered
`(base, multiplier)` pair, `estimate_output_size` returns the formatted value
of `base + multiplier * source_size` (for Python: base 15 MiB, multiplier 2);
for a nonexistent source or an unregistered type it returns "Unknown". -/
theorem estimate_output_size_spec (fs : List (String × Nat)) (src ty : String)
    (sz : Nat) (base : Int) (mult : ℚ)
    (hsz : fs.lookup src = some sz) (hest : estimates ty = some (base, mult)) :
    estimate_output_size fs src ty = format_size (Int.floor ((base : ℚ) + (sz : ℚ) * mult))
    ∧ estimates "py" = some (15 * 1024 * 1024, 2)
    ∧ (∀ (fs2 : List (String × Nat)) (src2 ty2 : String), fs2.lookup src2 = none →
        estimate_output_size fs2 src2 ty2 = "Unknown")
    ∧ (∀ ty3 : String, estimates ty3 = none → estimate_output_size fs src ty3 = "Unknown") := by
  refine ⟨?_, rfl, ?_, ?_⟩
  · simp [estimate_output_size, hsz, hest]
  · intro fs2 src2 ty2 h
    simp [estimate_output_size, h]
  · intro ty3 h
    simp [estimate_output_size, hsz, h]

/-- Witness for `estimate_output_size_spec`: a 1024-byte `hello.py` estimates
to `15 MiB + 2 * 1024` bytes, formatted. -/
theorem estimate_output_size_spec_witness :
    estimate_output_size [("hello.py", 1024)] "hello.py" "py"
        = format_size (Int.floor ((15728640 : ℚ) + (1024 : ℚ) * 2))
    ∧ estimates "py" = some (15 * 1024 * 1024, 2)
    ∧ (∀ (fs2 : List (String × Nat)) (src2 ty2 : String), fs2.lookup src2 = none →
        estimate_output_size fs2 src2 ty2 = "Unknown")
    ∧ (∀ ty3 : String, estimates ty3 = none →
        estimate_output_size [("hello.py", 1024)] "hello.py" ty3 = "Unknown") :=
  estimate_output_size_spec [("hello.py", 1024)] "hello.py" "py" 1024 15728640 2
    (by decide) (by decide)

/-- A spawn trace: the argument vectors of every external process start
attempted via `subprocess.run`. -/
abbrev Trace := List (List String)

/-- Either a normally returned `(success, output)` pair, or a Python
exception (carrying its message) that the compiler function did not catch. -/
abbrev CompileResult := Except String (Bool × String)

/-- The host environment a compilation runs against:
* `path`: program names resolvable on the search path (`shutil.which`, and
  bare program names given to `subprocess.run`);
* `files`: paths that exist on disk (`os.path.exists` / `Path.exists`);
* `windir`, `localAppData`, `programFiles`: the environment variables the
  source reads to build candidate tool paths;
* `tempDir`: the directory name `tempfile.mkdtemp` returns when it succeeds;
* `mkdtempOk`: whether `tempfile.mkdtemp` succeeds (it raises otherwise);
* `sedWriteOk`: whether writing the directive file succeeds (raises otherwise);
* `run`: the behaviour of a resolvable external process when spawned. -/
structure Env where
  path : List String
  files : List String
  windir : String
  localAppData : String
  programFiles : String
  tempDir : String
  mkdtempOk : Bool
  sedWriteOk : Bool
  run : List String → ProcOutcome

/-- What `subprocess.run cmd` observes: if the program can be resolved it
runs with the environment's behaviour; otherwise the spawn raises
`FileNotFoundError`. -/
def spawnOutcome (env : Env) (cmd : List String) : ProcOutcome :=
  match cmd.head? with
  | none => ProcOutcome.exn "IndexError: empty command"
  | some prog =>
      if prog ∈ env.path ∨ prog ∈ env.files then env.run cmd
      else ProcOutcome.exn ("FileNotFoundError: " ++ prog)

/-- `run_command` applied inside the environment: it spawns the process
(recording the attempt in the trace) and converts the outcome. -/
def run_command_env (env : Env) (cmd : List String) : (Bool × String) × Trace :=
  (run_command (spawnOutcome env cmd), [cmd])

/-- The optional PS2EXE metadata bundle (`metadata` dict). -/
structure BuildMetadata where
  product : String := ""
  version : String := ""
  company : String := ""
  copyright : String := ""
  description : String := ""

namespace Compiler

/-- The argument vector `compile_ps1` hands to `subprocess.run`: the
PowerShell invocation wrapping the built Invoke-PS2EXE command string.
Python truthiness of the option strings is non-emptiness. -/
def ps1Args (env : Env) (source output : String) (icon : Option String)
    (admin no_console : Bool) (metadata : Option BuildMetadata) : List String :=
  let ps_cmd := "Invoke-PS2EXE -InputFile \"" ++ source ++ "\" -OutputFile \"" ++ output ++ "\""
  let ps_cmd := match icon with
    | some i => if i ≠ "" ∧ i ∈ env.files then ps_cmd ++ " -IconFile \"" ++ i ++ "\"" else ps_cmd
    | none => ps_cmd
  let ps_cmd := if admin then ps_cmd ++ " -RequireAdmin" else ps_cmd
  let ps_cmd := if no_console then ps_cmd ++ " -NoConsole" else ps_cmd
  let ps_cmd := match metadata with
    | none => ps_cmd
    | some m =>
      let c1 := if m.product ≠ "" then ps_cmd ++ " -Title \"" ++ m.product ++ "\"" else ps_cmd
      let c2 := if m.version ≠ "" then c1 ++ " -Version \"" ++ m.version ++ "\"" else c1
      let c3 := if m.company ≠ "" then c2 ++ " -Company \"" ++ m.company ++ "\"" else c2
      if m.copyright ≠ "" then c3 ++ " -Copyright \"" ++ m.copyright ++ "\"" else c3
  ["powershell", "-ExecutionPolicy", "Bypass", "-Command"] ++ [ps_cmd]

/-- `Compiler.compile_ps1`: builds the PS2EXE command string and runs it via
PowerShell.  Note that the ps1 toolchain (the PS2EXE module) is not itself
the spawned program: `powershell` is. -/
def compile_ps1 (env : Env) (source output : String) (icon : Option String)
    (admin no_console : Bool) (metadata : Option BuildMetadata) :
    (Bool × String) × Trace :=
  run_command_env env (ps1Args env source output icon admin no_console metadata)

/-- The conditional `--icon` arguments of the PyInstaller command. -/
def pyIconArgs (env : Env) (icon : Option String) : List String :=
  match icon with
  | some i => if i ≠ "" ∧ i ∈ env.files then ["--icon", i] else []
  | none => []

/-- The argument vector `compile_py` hands to PyInstaller. -/
def pyArgs (env : Env) (source output : String) (icon : Option String)
    (one_file console : Bool) : List String :=
  let output_dir := dirname output
  let output_name := splitext_root (basename output)
  ["pyinstaller", "--distpath", output_dir, "--name", output_name, "--noconfirm"]
    ++ (if one_file then ["--onefile"] else [])
    ++ (if !console then ["--noconsole"] else [])
    ++ pyIconArgs env icon
    ++ [source]

/-- `Compiler.compile_py`: runs PyInstaller with the built argument vector.
There is no availability pre-check: the tool is spawned directly. -/
def compile_py (env : Env) (source output : String) (icon : Option String)
    (one_file console : Bool) : (Bool × String) × Trace :=
  run_command_env env (pyArgs env source output icon one_file console)

/-- The IExpress directive (`SED`) file content synthesized by
`compile_batch`. -/
def sed_content (output src_name temp_dir : String) : String :=
  "[Version]\nClass=IEXPRESS\nSEDVersion=3\n[Options]\nPackagePurpose=InstallApp\n"
    ++ "ShowInstallProgramWindow=0\nHideExtractAnimation=1\nUseLongFileName=1\n"
    ++ "InsideCompressed=0\nCAB_FixedSize=0\nRebootMode=N\n"
    ++ "TargetName=" ++ output ++ "\nFriendlyName=App\n"
    ++ "AppLaunched=cmd /c \"" ++ src_name ++ "\"\nPostInstallCmd=<None>\n"
    ++ "SourceFiles=SourceFiles\n[Strings]\n[SourceFiles]\n"
    ++ "SourceFiles0=" ++ temp_dir ++ "\\\n[SourceFiles0]\n%FILE0%=" ++ src_name ++ "\n"

/-- The absolute path `compile_batch` builds for the IExpress packager
(probed by `check_iexpress`, but invoked without any pre-check). -/
def iexpressPath (env : Env) : String :=
  pjoin (pjoin env.windir "System32") "iexpress.exe"

/-- The body of `compile_batch`'s `try` block: stage the source into the
workspace, write the directive file, invoke IExpress.  `shutil.copy` raises
when the source does not exist, and the directive write can raise; neither
exception is caught here. -/
def batchBody (env : Env) (source output : String) : CompileResult × Trace :=
  let src_name := basename source
  if source ∉ env.files then
    (Except.error ("FileNotFoundError: No such file or directory: " ++ source), [])
  else
    let _sed := sed_content output src_name env.tempDir
    if !env.sedWriteOk then
      (Except.error "OSError: cannot write directive file", [])
    else
      let sed_file := pjoin env.tempDir "config.sed"
      let rt := run_command_env env [iexpressPath env, "/N", "/Q", sed_file]
      (Except.ok rt.1, rt.2)

/-- The outcome of `Compiler.compile_batch`: the result (or escaping
exception), the spawn trace, and whether the temporary workspace directory
still exists once the call has returned or raised. -/
structure BatchOutcome where
  result : CompileResult
  trace : Trace
  tempDirExists : Bool

/-- `Compiler.compile_batch`: creates a temporary workspace, runs the body,
and removes the workspace in a `finally` block, so the workspace is gone on
every exit path after its creation — but exceptions from the body still
propagate after the cleanup. -/
def compile_batch (env : Env) (source output : String) : BatchOutcome :=
  if !env.mkdtempOk then
    { result := Except.error "OSError: mkdtemp failed", trace := [], tempDirExists := false }
  else
    let body := batchBody env source output
    { result := body.1, trace := body.2, tempDirExists := false }

/-- `Compiler.compile_js`: runs pkg directly, no availability pre-check. -/
def compile_js (env : Env) (source output : String) : (Bool × String) × Trace :=
  run_command_env env ["pkg", source, "--target", "node18-win-x64", "--output", output]

/-- First candidate location of the C# compiler. -/
def cscPath64 (env : Env) : String :=
  pjoin (pjoin (pjoin (pjoin env.windir "Microsoft.NET") "Framework64") "v4.0.30319") "csc.exe"

/-- Second candidate location of the C# compiler. -/
def cscPath32 (env : Env) : String :=
  pjoin (pjoin (pjoin (pjoin env.windir "Microsoft.NET") "Framework") "v4.0.30319") "csc.exe"

/-- `Compiler.compile_cs`: probes the two candidate CSC locations before
running; reports "CSC compiler not found" without spawning when both are
absent. -/
def compile_cs (env : Env) (source output : String) : (Bool × String) × Trace :=
  let csc : Option String :=
    if cscPath64 env ∈ env.files then some (cscPath64 env)
    else if cscPath32 env ∈ env.files then some (cscPath32 env)
    else none
  match csc with
  | none => ((false, "CSC compiler not found"), [])
  | some c => run_command_env env [c, "/out:" ++ output, source]

/-- The conditional Go installation path probed when `go` is not on the
search path. -/
def goFallback (env : Env) : String :=
  pjoin env.localAppData "Programs/Go/bin/go.exe"

/-- `Compiler.compile_go`: resolves the Go toolchain (search path, then the
conditional installation path) before running; reports "Go compiler not
found" without spawning when neither resolves. -/
def compile_go (env : Env) (source output : String) : (Bool × String) × Trace :=
  let go_exe : Option String :=
    if "go" ∈ env.path then some "go"
    else if goFallback env ∈ env.files then some (goFallback env)
    else none
  match go_exe with
  | none => ((false, "Go compiler not found"), [])
  | some g => run_command_env env [g, "build", "-o", output, source]

/-- First candidate location of Ahk2Exe probed by `compile_ahk`. -/
def ahkPath1 (env : Env) : String :=
  pjoin env.programFiles "AutoHotkey/Compiler/Ahk2Exe.exe"

/-- Second candidate location of Ahk2Exe probed by `compile_ahk`. -/
def ahkPath2 (env : Env) : String :=
  pjoin env.programFiles "AutoHotkey/v2/Compiler/Ahk2Exe.exe"

/-- `Compiler.compile_ahk`: probes the two candidate Ahk2Exe locations
before running; reports "AutoHotkey compiler not found" without spawning
when both are absent. -/
def compile_ahk (env : Env) (source output : String) (icon : Option String) :
    (Bool × String) × Trace :=
  let ahk : Option String :=
    if ahkPath1 env ∈ env.files then some (ahkPath1 env)
    else if ahkPath2 env ∈ env.files then some (ahkPath2 env)
    else none
  match ahk with
  | none => ((false, "AutoHotkey compiler not found"), [])
  | some a =>
    let cmd := [a, "/in", source, "/out", output]
      ++ (match icon with
          | some i => if i ≠ "" ∧ i ∈ env.files then ["/icon", i] else []
          | none => [])
    run_command_env env cmd

/-- `Compiler.compile_rb`: runs Ocra directly, no availability pre-check. -/
def compile_rb (env : Env) (source output : String) : (Bool × String) × Trace :=
  run_command_env env ["ocra", source, "--output", output]

/-- `Compiler.compile`: dispatch on the file type.  A type outside the table
yields a failed result with no spawn; the batch strategies can let an
exception escape (modelled by `Except.error`), all other strategies return
normally. -/
def compile (env : Env) (source output file_type : String) (icon : Option String)
    (admin console single_file : Bool) (metadata : Option BuildMetadata) :
    CompileResult × Trace :=
  if file_type = "ps1" then
    let rt := compile_ps1 env source output icon admin (!console) metadata
    (Except.ok rt.1, rt.2)
  else if file_type = "py" then
    let rt := compile_py env source output icon single_file console
    (Except.ok rt.1, rt.2)
  else if file_type = "bat" then
    let o := compile_batch env source output
    (o.result, o.trace)
  else if file_type = "cmd" then
    let o := compile_batch env source output
    (o.result, o.trace)
  else if file_type = "js" then
    let rt := compile_js env source output
    (Except.ok rt.1, rt.2)
  else if file_type = "vbs" then
    let o := compile_batch env source output
    (o.result, o.trace)
  else if file_type = "ahk" then
    let rt := compile_ahk env source output icon
    (Except.ok rt.1, rt.2)
  else if file_type = "cs" then
    let rt := compile_cs env source output
    (Except.ok rt.1, rt.2)
  else if file_type = "go" then
    let rt := compile_go env source output
    (Except.ok rt.1, rt.2)
  else if file_type = "rb" then
    let rt := compile_rb env source output
    (Except.ok rt.1, rt.2)
  else (Except.ok (false, "Unsupported file type: " ++ file_type), [])

end Compiler

/-- The supported file types (the keys of the `COMPILERS` table). -/
def supportedTypes : List String :=
  ["ps1", "py", "bat", "cmd", "js", "vbs", "ahk", "cs", "go", "rb"]

/-- A concrete host with no toolchain present anywhere: empty search path,
empty filesystem. -/
def envNoTools : Env :=
  { path := []
    files := []
    windir := "C:/Windows"
    localAppData := "C:/Users/u/AppData/Local"
    programFiles := "C:/Program Files"
    tempDir := "C:/Temp/tmp123"
    mkdtempOk := true
    sedWriteOk := true
    run := fun _ => ProcOutcome.ok 0 "" "" }

/-- C2: for a file type outside the supported set, `Compiler.compile`
returns `succeeded = false` with output exactly
"Unsupported file type: <type>" and spawns no external process. -/
theorem compile_unsupported_type (env : Env) (source output file_type : String)
    (icon : Option String) (admin console single_file : Bool)
    (metadata : Option BuildMetadata) (h : file_type ∉ supportedTypes) :
    Compiler.compile env source output file_type icon admin console single_file metadata
      = (Except.ok (false, "Unsupported file type: " ++ file_type), []) := by
  simp only [supportedTypes, List.mem_cons, List.not_mem_nil, or_false, not_or] at h
  obtain ⟨h1, h2, h3, h4, h5, h6, h7, h8, h9, h10⟩ := h
  simp [Compiler.compile, h1, h2, h3, h4, h5, h6, h7, h8, h9, h10]

/-- Witness for `compile_unsupported_type` at the unsupported type "txt". -/
theorem compile_unsupported_type_witness :
    Compiler.compile envNoTools "a.txt" "a.exe" "txt" none false false true none
      = (Except.ok (false, "Unsupported file type: " ++ "txt"), []) :=
  compile_unsupported_type envNoTools "a.txt" "a.exe" "txt" none false false true none
    (by decide)

/-- C4: on every exit path of `Compiler.compile_batch` — packager succeeded,
packager failed, or an exception raised at any step — the temporary
workspace directory no longer exists once the call is over. -/
theorem compile_batch_cleanup (env : Env) (source output : String) :
    (Compiler.compile_batch env source output).tempDirExists = false := by
  unfold Compiler.compile_batch
  split <;> rfl

/-- Witness for `compile_batch_cleanup` at a concrete environment. -/
theorem compile_batch_cleanup_witness :
    (Compiler.compile_batch envNoTools "a.bat" "a.exe").tempDirExists = false :=
  compile_batch_cleanup envNoTools "a.bat" "a.exe"

/-- C1 counterexample: the Python strategy has no availability pre-check.
With PyInstaller absent from every searched location, `Compiler.compile`
still attempts to spawn it — the spawn trace is nonempty — so tool absence
is discovered via the spawn failure, contradicting the claim's
"no external process is spawned ... never discovered via a spawn failure". -/
theorem compile_py_missing_tool_spawns :
    ("pyinstaller" ∉ envNoTools.path ∧ "pyinstaller" ∉ envNoTools.files)
    ∧ (Compiler.compile envNoTools "src.py" "out/app.exe" "py" none false false true none).2
        = [["pyinstaller", "--distpath", "out", "--name", "app", "--noconfirm",
            "--onefile", "--noconsole", "src.py"]] := by
  constructor
  · exact ⟨List.not_mem_nil _, List.not_mem_nil _⟩
  · rfl

/-- C1 amended: only the C#, Go and AutoHotkey strategies (the toolchains
that resolve to conditional installation paths) check for the tool before
running it, returning `succeeded = false` with a message naming the missing
tool and spawning nothing.  For py, js and rb the tool is invoked directly
by name, and for bat/cmd/vbs the packager is invoked by absolute path once
the workspace steps succeed: absence then surfaces as a spawn failure which
`run_command` catches, so `compile` still returns `succeeded = false` with a
message naming the missing binary, but with exactly one spawn attempt
recorded.  For ps1 the toolchain (the PS2EXE module) is not itself the
spawned program: `powershell` is spawned, and a failing conversion surfaces
as powershell's nonzero exit, reported as `succeeded = false` with the
captured output. -/
theorem compile_tool_precheck_amended (env : Env) (source output : String)
    (icon : Option String) (admin console single_file : Bool)
    (metadata : Option BuildMetadata) :
    ((Compiler.cscPath64 env ∉ env.files ∧ Compiler.cscPath32 env ∉ env.files) →
      Compiler.compile env source output "cs" icon admin console single_file metadata
        = (Except.ok (false, "CSC compiler not found"), []))
    ∧ (("go" ∉ env.path ∧ Compiler.goFallback env ∉ env.files) →
      Compiler.compile env source output "go" icon admin console single_file metadata
        = (Except.ok (false, "Go compiler not found"), []))
    ∧ ((Compiler.ahkPath1 env ∉ env.files ∧ Compiler.ahkPath2 env ∉ env.files) →
      Compiler.compile env source output "ahk" icon admin console single_file metadata
        = (Except.ok (false, "AutoHotkey compiler not found"), []))
    ∧ (("pyinstaller" ∉ env.path ∧ "pyinstaller" ∉ env.files) →
      (Compiler.compile env source output "py" icon admin console single_file metadata).1
        = Except.ok (false, "FileNotFoundError: " ++ "pyinstaller")
      ∧ (Compiler.compile env source output "py" icon admin console single_file metadata).2
          = [Compiler.pyArgs env source output icon single_file console])
    ∧ (("pkg" ∉ env.path ∧ "pkg" ∉ env.files) →
      (Compiler.compile env source output "js" icon admin console single_file metadata).1
        = Except.ok (false, "FileNotFoundError: " ++ "pkg")
      ∧ (Compiler.compile env source output "js" icon admin console single_file metadata).2
          = [["pkg", source, "--target", "node18-win-x64", "--output", output]])
    ∧ (("ocra" ∉ env.path ∧ "ocra" ∉ env.files) →
      (Compiler.compile env source output "rb" icon admin console single_file metadata).1
        = Except.ok (false, "FileNotFoundError: " ++ "ocra")
      ∧ (Compiler.compile env source output "rb" icon admin console single_file metadata).2
          = [["ocra", source, "--output", output]])
    ∧ (∀ ty, (ty = "bat" ∨ ty = "cmd" ∨ ty = "vbs") →
      env.mkdtempOk = true → source ∈ env.files → env.sedWriteOk = true →
      (Compiler.iexpressPath env ∉ env.path ∧ Compiler.iexpressPath env ∉ env.files) →
      (Compiler.compile env source output ty icon admin console single_file metadata).1
        = Except.ok (false, "FileNotFoundError: " ++ Compiler.iexpressPath env)
      ∧ (Compiler.compile env source output ty icon admin console single_file metadata).2
          = [[Compiler.iexpressPath env, "/N", "/Q", pjoin env.tempDir "config.sed"]])
    ∧ ("powershell" ∈ env.path → ∀ (c : Int) (out err : String),
      env.run (Compiler.ps1Args env source output icon admin (!console) metadata)
        = ProcOutcome.ok c out err → c ≠ 0 →
      (Compiler.compile env source output "ps1" icon admin console single_file metadata).1
        = Except.ok (false, out ++ err)
      ∧ (Compiler.compile env source output "ps1" icon admin console single_file metadata).2
          = [Compiler.ps1Args env source output icon admin (!console) metadata]) := by
  refine ⟨?_, ?_, ?_, ?_, ?_, ?_, ?_, ?_⟩
  · rintro ⟨h1, h2⟩
    simp [Compiler.compile, Compiler.compile_cs, h1, h2]
  · rintro ⟨h1, h2⟩
    simp [Compiler.compile, Compiler.compile_go, h1, h2]
  · rintro ⟨h1, h2⟩
    simp [Compiler.compile, Compiler.compile_ahk, h1, h2]
  · rintro ⟨h1, h2⟩
    refine ⟨?_, rfl⟩
    simp [Compiler.compile, Compiler.compile_py, run_command_env, spawnOutcome,
      Compiler.pyArgs, run_command, List.cons_append, h1, h2]
  · rintro ⟨h1, h2⟩
    refine ⟨?_, rfl⟩
    simp [Compiler.compile, Compiler.compile_js, run_command_env, spawnOutcome,
      run_command, h1, h2]
  · rintro ⟨h1, h2⟩
    refine ⟨?_, rfl⟩
    simp [Compiler.compile, Compiler.compile_rb, run_command_env, spawnOutcome,
      run_command, h1, h2]
  · rintro ty (rfl | rfl | rfl) hmk hsrc hsed ⟨h1, h2⟩ <;>
      refine ⟨?_, ?_⟩ <;>
        simp [Compiler.compile, Compiler.compile_batch, Compiler.batchBody,
          run_command_env, spawnOutcome, run_command, hmk, hsrc, hsed, h1, h2]
  · intro hps c out err hrun hc
    have hhead : (Compiler.ps1Args env source output icon admin (!console)
        metadata).head? = some "powershell" := rfl
    have hspawn : spawnOutcome env (Compiler.ps1Args env source output icon admin
        (!console) metadata) = env.run (Compiler.ps1Args env source output icon
        admin (!console) metadata) := by
      simp only [spawnOutcome, hhead]
      exact if_pos (Or.inl hps)
    refine ⟨?_, rfl⟩
    have hfst : (Compiler.compile env source output "ps1" icon admin console
        single_file metadata).1
        = Except.ok (run_command (spawnOutcome env (Compiler.ps1Args env source
            output icon admin (!console) metadata))) := rfl
    rw [hfst, hspawn, hrun]
    simp [run_command, beq_eq_false_iff_ne.mpr hc]

/-- A host where the batch workspace steps succeed but the IExpress binary
is absent. -/
def envIexpressMissing : Env :=
  { envNoTools with files := ["src.bat"] }

/-- A host with only `powershell` on the search path, whose processes exit
with status 1 (the PS2EXE module being absent). -/
def envPsOnly : Env :=
  { envNoTools with
      path := ["powershell"]
      run := fun _ => ProcOutcome.ok 1 "Invoke-PS2EXE : not recognized" "" }

/-- Witness for `compile_tool_precheck_amended`: every conjunct instantiated
on a concrete host. -/
theorem compile_tool_precheck_amended_witness :
    (Compiler.compile envNoTools "a.cs" "b.exe" "cs" none false false true none
        = (Except.ok (false, "CSC compiler not found"), []))
    ∧ (Compiler.compile envNoTools "a.go" "b.exe" "go" none false false true none
        = (Except.ok (false, "Go compiler not found"), []))
    ∧ (Compiler.compile envNoTools "a.ahk" "b.exe" "ahk" none false false true none
        = (Except.ok (false, "AutoHotkey compiler not found"), []))
    ∧ ((Compiler.compile envNoTools "a.py" "b.exe" "py" none false false true none).1
        = Except.ok (false, "FileNotFoundError: " ++ "pyinstaller")
      ∧ (Compiler.compile envNoTools "a.py" "b.exe" "py" none false false true none).2
          = [Compiler.pyArgs envNoTools "a.py" "b.exe" none true false])
    ∧ ((Compiler.compile envNoTools "a.js" "b.exe" "js" none false false true none).1
        = Except.ok (false, "FileNotFoundError: " ++ "pkg")
      ∧ (Compiler.compile envNoTools "a.js" "b.exe" "js" none false false true none).2
          = [["pkg", "a.js", "--target", "node18-win-x64", "--output", "b.exe"]])
    ∧ ((Compiler.compile envNoTools "a.rb" "b.exe" "rb" none false false true none).1
        = Except.ok (false, "FileNotFoundError: " ++ "ocra")
      ∧ (Compiler.compile envNoTools "a.rb" "b.exe" "rb" none false false true none).2
          = [["ocra", "a.rb", "--output", "b.exe"]])
    ∧ ((Compiler.compile envIexpressMissing "src.bat" "b.exe" "bat" none false false
          true none).1
        = Except.ok (false, "FileNotFoundError: " ++ Compiler.iexpressPath envIexpressMissing)
      ∧ (Compiler.compile envIexpressMissing "src.bat" "b.exe" "bat" none false false
          true none).2
          = [[Compiler.iexpressPath envIexpressMissing, "/N", "/Q",
              pjoin envIexpressMissing.tempDir "config.sed"]])
    ∧ ((Compiler.compile envPsOnly "a.ps1" "b.exe" "ps1" none false false true none).1
        = Except.ok (false, "Invoke-PS2EXE : not recognized" ++ "")
      ∧ (Compiler.compile envPsOnly "a.ps1" "b.exe" "ps1" none false false true none).2
          = [Compiler.ps1Args envPsOnly "a.ps1" "b.exe" none false (!false) none]) := by
  have hcs := (compile_tool_precheck_amended envNoTools "a.cs" "b.exe" none false false
    true none).1
  have hgo := (compile_tool_precheck_amended envNoTools "a.go" "b.exe" none false false
    true none).2.1
  have hahk := (compile_tool_precheck_amended envNoTools "a.ahk" "b.exe" none false false
    true none).2.2.1
  have hpy := (compile_tool_precheck_amended envNoTools "a.py" "b.exe" none false false
    true none).2.2.2.1
  have hjs := (compile_tool_precheck_amended envNoTools "a.js" "b.exe" none false false
    true none).2.2.2.2.1
  have hrb := (compile_tool_precheck_amended envNoTools "a.rb" "b.exe" none false false
    true none).2.2.2.2.2.1
  have hbat := (compile_tool_precheck_amended envIexpressMissing "src.bat" "b.exe" none
    false false true none).2.2.2.2.2.2.1
  have hps := (compile_tool_precheck_amended envPsOnly "a.ps1" "b.exe" none false false
    true none).2.2.2.2.2.2.2
  exact ⟨hcs (by decide), hgo (by decide), hahk (by decide), hpy (by decide),
    hjs (by decide), hrb (by decide),
    hbat "bat" (Or.inl rfl) rfl (by decide) rfl (by decide),
    hps (by decide) 1 "Invoke-PS2EXE : not recognized" "" rfl (by decide)⟩

/-- A host where the workspace is created and the source exists, but the
directive file cannot be written. -/
def envNoSed : Env :=
  { path := []
    files := ["src.bat"]
    windir := "C:/Windows"
    localAppData := "C:/Users/u/AppData/Local"
    programFiles := "C:/Program Files"
    tempDir := "C:/Temp/tmp123"
    mkdtempOk := true
    sedWriteOk := false
    run := fun _ => ProcOutcome.ok 0 "" "" }

/-- Dispatching a batch-family type reaches `compile_batch`. -/
theorem compile_dispatch_batch (env : Env) (source output file_type : String)
    (icon : Option String) (admin console single_file : Bool)
    (metadata : Option BuildMetadata)
    (hty : file_type = "bat" ∨ file_type = "cmd" ∨ file_type = "vbs") :
    Compiler.compile env source output file_type icon admin console single_file metadata
      = ((Compiler.compile_batch env source output).result,
         (Compiler.compile_batch env source output).trace) := by
  rcases hty with h | h | h <;> subst h <;> simp [Compiler.compile]

/-- C5 counterexample: with the source file absent, `shutil.copy` raises
inside `compile_batch` and—there being no `except` clause—the exception
escapes `Compiler.compile` instead of being returned as a failed
`(False, diagnostic_text)` result. -/
theorem compile_batch_copy_failure_raises :
    (Compiler.compile envNoTools "missing.bat" "C:/out.exe" "bat" none false false true none).1
      = Except.error ("FileNotFoundError: No such file or directory: " ++ "missing.bat") := by
  rfl

/-- C5 amended: a failure at any step of the batch path before the packager
invocation (temporary directory creation, source copy, directive write) is
raised as an exception that propagates out of `Compiler.compile`; it is not
converted into a `(false, diagnostic_text)` return value.  (The workspace
cleanup of C4 still runs on these paths.) -/
theorem compile_batch_prestep_exception_amended (env : Env)
    (source output file_type : String) (icon : Option String)
    (admin console single_file : Bool) (metadata : Option BuildMetadata)
    (hty : file_type = "bat" ∨ file_type = "cmd" ∨ file_type = "vbs") :
    (env.mkdtempOk = false →
      (Compiler.compile env source output file_type icon admin console single_file metadata).1
        = Except.error "OSError: mkdtemp failed")
    ∧ (env.mkdtempOk = true → source ∉ env.files →
      (Compiler.compile env source output file_type icon admin console single_file metadata).1
        = Except.error ("FileNotFoundError: No such file or directory: " ++ source))
    ∧ (env.mkdtempOk = true → source ∈ env.files → env.sedWriteOk = false →
      (Compiler.compile env source output file_type icon admin console single_file metadata).1
        = Except.error "OSError: cannot write directive file") := by
  rw [compile_dispatch_batch env source output file_type icon admin console single_file metadata hty]
  refine ⟨?_, ?_, ?_⟩
  · intro h
    simp [Compiler.compile_batch, h]
  · intro h hs
    simp [Compiler.compile_batch, Compiler.batchBody, h, hs]
  · intro h hs hw
    simp [Compiler.compile_batch, Compiler.batchBody, h, hs, hw]

/-- Witness for `compile_batch_prestep_exception_amended`: the
directive-write failure raises out of `Compiler.compile`. -/
theorem compile_batch_prestep_exception_amended_witness :
    (Compiler.compile envNoSed "src.bat" "C:/out.exe" "bat" none false false true none).1
      = Except.error "OSError: cannot write directive file" :=
  (compile_batch_prestep_exception_amended envNoSed "src.bat" "C:/out.exe" "bat"
    none false false true none (Or.inl rfl)).2.2 rfl (by decide) rfl

/-- C6: the argument vector `compile_py` hands to PyInstaller contains
`--onefile` exactly when single-file is requested, `--noconsole` exactly when
the console flag is false, `--icon <path>` exactly when an icon is supplied
(non-empty) and exists on disk, and passes via `--distpath` and `--name` the
directory and the extension-stripped base name of the requested output path.
The hypotheses only rule out degenerate inputs that are themselves spelled
like one of the PyInstaller flags. -/
theorem compile_py_cmd_spec (env : Env) (source output : String)
    (icon : Option String) (one_file console : Bool)
    (hs : source ∉ ["--onefile", "--noconsole", "--icon"])
    (hd : dirname output ∉ ["--onefile", "--noconsole", "--icon"])
    (hn : splitext_root (basename output) ∉ ["--onefile", "--noconsole", "--icon"])
    (hi : ∀ i, icon = some i → i ∉ ["--onefile", "--noconsole"]) :
    (Compiler.compile_py env source output icon one_file console).2
        = [Compiler.pyArgs env source output icon one_file console]
    ∧ ("--onefile" ∈ Compiler.pyArgs env source output icon one_file console
        ↔ one_file = true)
    ∧ ("--noconsole" ∈ Compiler.pyArgs env source output icon one_file console
        ↔ console = false)
    ∧ ("--icon" ∈ Compiler.pyArgs env source output icon one_file console
        ↔ ∃ i, icon = some i ∧ i ≠ "" ∧ i ∈ env.files)
    ∧ (Compiler.pyArgs env source output icon one_file console).take 6
        = ["pyinstaller", "--distpath", dirname output, "--name",
           splitext_root (basename output), "--noconfirm"] := by
  simp only [List.mem_cons, List.not_mem_nil, or_false, not_or] at hs hd hn
  obtain ⟨hs1, hs2, hs3⟩ := hs
  obtain ⟨hd1, hd2, hd3⟩ := hd
  obtain ⟨hn1, hn2, hn3⟩ := hn
  refine ⟨rfl, ?_, ?_, ?_, rfl⟩ <;>
  · rcases icon with _ | i
    · cases one_file <;> cases console <;>
        simp [Compiler.pyArgs, Compiler.pyIconArgs,
          Ne.symm hs1, Ne.symm hs2, Ne.symm hs3,
          Ne.symm hd1, Ne.symm hd2, Ne.symm hd3,
          Ne.symm hn1, Ne.symm hn2, Ne.symm hn3]
    · have hii := hi i rfl
      simp only [List.mem_cons, List.not_mem_nil, or_false, not_or] at hii
      obtain ⟨hii1, hii2⟩ := hii
      by_cases hc : i ≠ "" ∧ i ∈ env.files <;>
        cases one_file <;> cases console <;>
          simp [Compiler.pyArgs, Compiler.pyIconArgs, hc,
            Ne.symm hs1, Ne.symm hs2, Ne.symm hs3,
            Ne.symm hd1, Ne.symm hd2, Ne.symm hd3,
            Ne.symm hn1, Ne.symm hn2, Ne.symm hn3,
            Ne.symm hii1, Ne.symm hii2]

/-- Witness for `compile_py_cmd_spec` at a concrete request. -/
theorem compile_py_cmd_spec_witness :
    ((Compiler.compile_py { envNoTools with files := ["ic.ico"] } "src.py" "out/app.exe"
        (some "ic.ico") true false).2
      = [Compiler.pyArgs { envNoTools with files := ["ic.ico"] } "src.py" "out/app.exe"
          (some "ic.ico") true false])
    ∧ ("--onefile" ∈ Compiler.pyArgs { envNoTools with files := ["ic.ico"] } "src.py"
        "out/app.exe" (some "ic.ico") true false ↔ true = true)
    ∧ ("--noconsole" ∈ Compiler.pyArgs { envNoTools with files := ["ic.ico"] } "src.py"
        "out/app.exe" (some "ic.ico") true false ↔ false = false)
    ∧ ("--icon" ∈ Compiler.pyArgs { envNoTools with files := ["ic.ico"] } "src.py"
        "out/app.exe" (some "ic.ico") true false
        ↔ ∃ i, (some "ic.ico" : Option String) = some i ∧ i ≠ ""
            ∧ i ∈ ({ envNoTools with files := ["ic.ico"] } : Env).files)
    ∧ (Compiler.pyArgs { envNoTools with files := ["ic.ico"] } "src.py" "out/app.exe"
        (some "ic.ico") true false).take 6
      = ["pyinstaller", "--distpath", dirname "out/app.exe", "--name",
         splitext_root (basename "out/app.exe"), "--noconfirm"] :=
  compile_py_cmd_spec { envNoTools with files := ["ic.ico"] } "src.py" "out/app.exe"
    (some "ic.ico") true false (by decide) (by decide) (by decide)
    (fun i h => by cases h; decide)

/-- A compilation history entry (the dict built by
`CompilationHistory.add`; the timestamp is abstract). -/
structure HistoryEntry where
  timestamp : String
  source : String
  output : String
  file_type : String
  success : Bool
  profile : String
  size : Nat
deriving DecidableEq

namespace CompilationHistory

/-- `CompilationHistory.add`: insert the entry at index 0 (newest first) and
truncate the list to `max_items`. -/
def add (max_items : Nat) (entry : HistoryEntry) (history : List HistoryEntry) :
    List HistoryEntry :=
  (entry :: history).take max_items

/-- A sequence of `add` calls, oldest first. -/
def addAll (max_items : Nat) (entries : List HistoryEntry)
    (history : List HistoryEntry) : List HistoryEntry :=
  entries.foldl (fun h e => add max_items e h) history

end CompilationHistory

/-- Truncating the second list before appending does not change the
truncation of the whole. -/
theorem take_append_take {α : Type} (n : Nat) (a b : List α) :
    (a ++ b.take n).take n = (a ++ b).take n := by
  rw [List.take_append_eq_append_take, List.take_append_eq_append_take,
    List.take_take, Nat.min_eq_left (Nat.sub_le n a.length)]

/-- A nonempty sequence of adds is the truncated reverse-prepend of the
entries. -/
theorem addAll_eq_take (max_items : Nat) (entries : List HistoryEntry)
    (history : List HistoryEntry) (hne : entries ≠ []) :
    CompilationHistory.addAll max_items entries history
      = (entries.reverse ++ history).take max_items := by
  induction entries generalizing history with
  | nil => exact absurd rfl hne
  | cons e es ih =>
    rcases es with _ | ⟨e2, es2⟩
    · simp [CompilationHistory.addAll, CompilationHistory.add]
    · have step : CompilationHistory.addAll max_items (e :: e2 :: es2) history
          = CompilationHistory.addAll max_items (e2 :: es2)
              (CompilationHistory.add max_items e history) := rfl
      rw [step, ih _ (by simp)]
      show ((e2 :: es2).reverse ++ ([e] ++ history).take max_items).take max_items
          = ((e :: e2 :: es2).reverse ++ history).take max_items
      rw [take_append_take]
      simp [List.append_assoc]

/-- C8: `CompilationHistory.add` inserts each entry at the front, the stored
list never exceeds `max_items` after an add, and inserting `max_items + 5`
entries into a fresh history leaves exactly `max_items` entries,
newest-first, with the 5 oldest evicted. -/
theorem history_add_cap_spec (max_items : Nat) (e : HistoryEntry)
    (h : List HistoryEntry) (es : List HistoryEntry)
    (hmax : 1 ≤ max_items) (hlen : es.length = max_items + 5) :
    (CompilationHistory.add max_items e h).head? = some e
    ∧ (CompilationHistory.add max_items e h).length ≤ max_items
    ∧ CompilationHistory.addAll max_items es [] = (es.drop 5).reverse
    ∧ (CompilationHistory.addAll max_items es []).length = max_items := by
  have hne : es ≠ [] := by
    intro hnil
    rw [hnil] at hlen
    simp only [List.length_nil] at hlen
    omega
  have h5 : es.length - max_items = 5 := by omega
  have hall : CompilationHistory.addAll max_items es [] = (es.drop 5).reverse := by
    rw [addAll_eq_take max_items es [] hne, List.append_nil, List.take_reverse, h5]
  refine ⟨?_, ?_, hall, ?_⟩
  · obtain ⟨m, rfl⟩ : ∃ m, max_items = m + 1 := ⟨max_items - 1, by omega⟩
    rfl
  · simp only [CompilationHistory.add, List.length_take]
    omega
  · rw [hall]
    simp [hlen]

/-- Witness for `history_add_cap_spec`: cap 2, seven insertions. -/
theorem history_add_cap_spec_witness :
    (CompilationHistory.add 2 (HistoryEntry.mk "t0" "s" "o" "py" true "Default" 0)
        []).head? = some (HistoryEntry.mk "t0" "s" "o" "py" true "Default" 0)
    ∧ (CompilationHistory.add 2 (HistoryEntry.mk "t0" "s" "o" "py" true "Default" 0)
        []).length ≤ 2
    ∧ CompilationHistory.addAll 2
        [HistoryEntry.mk "t1" "s" "o" "py" true "Default" 1,
         HistoryEntry.mk "t2" "s" "o" "py" true "Default" 2,
         HistoryEntry.mk "t3" "s" "o" "py" true "Default" 3,
         HistoryEntry.mk "t4" "s" "o" "py" true "Default" 4,
         HistoryEntry.mk "t5" "s" "o" "py" true "Default" 5,
         HistoryEntry.mk "t6" "s" "o" "py" true "Default" 6,
         HistoryEntry.mk "t7" "s" "o" "py" true "Default" 7] []
      = ([HistoryEntry.mk "t1" "s" "o" "py" true "Default" 1,
          HistoryEntry.mk "t2" "s" "o" "py" true "Default" 2,
          HistoryEntry.mk "t3" "s" "o" "py" true "Default" 3,
          HistoryEntry.mk "t4" "s" "o" "py" true "Default" 4,
          HistoryEntry.mk "t5" "s" "o" "py" true "Default" 5,
          HistoryEntry.mk "t6" "s" "o" "py" true "Default" 6,
          HistoryEntry.mk "t7" "s" "o" "py" true "Default" 7].drop 5).reverse
    ∧ (CompilationHistory.addAll 2
        [HistoryEntry.mk "t1" "s" "o" "py" true "Default" 1,
         HistoryEntry.mk "t2" "s" "o" "py" true "Default" 2,
         HistoryEntry.mk "t3" "s" "o" "py" true "Default" 3,
         HistoryEntry.mk "t4" "s" "o" "py" true "Default" 4,
         HistoryEntry.mk "t5" "s" "o" "py" true "Default" 5,
         HistoryEntry.mk "t6" "s" "o" "py" true "Default" 6,
         HistoryEntry.mk "t7" "s" "o" "py" true "Default" 7] []).length = 2 :=
  history_add_cap_spec 2 (HistoryEntry.mk "t0" "s" "o" "py" true "Default" 0) []
    [HistoryEntry.mk "t1" "s" "o" "py" true "Default" 1,
     HistoryEntry.mk "t2" "s" "o" "py" true "Default" 2,
     HistoryEntry.mk "t3" "s" "o" "py" true "Default" 3,
     HistoryEntry.mk "t4" "s" "o" "py" true "Default" 4,
     HistoryEntry.mk "t5" "s" "o" "py" true "Default" 5,
     HistoryEntry.mk "t6" "s" "o" "py" true "Default" 6,
     HistoryEntry.mk "t7" "s" "o" "py" true "Default" 7] (by decide) (by decide)

namespace RecentFiles

/-- `RecentFiles.add`: remove the path if already present (Python's guarded
`list.remove`, which drops the first occurrence), insert it at index 0, and
truncate to `max_items`. -/
def add (max_items : Nat) (filepath : String) (files : List String) : List String :=
  (filepath :: (if filepath ∈ files then files.erase filepath else files)).take max_items

end RecentFiles

/-- C9: `RecentFiles.add` of a path puts it at the front; the list never
exceeds the configured maximum; a path occurring at most once before an add
occurs exactly once after it (re-adding moves, it does not duplicate); and
adding `a`, then `b`, then `a` again to an empty list yields `[a, b]`. -/
theorem recent_add_spec (max_items : Nat) (a b : String) (l : List String)
    (hmax : 2 ≤ max_items) (hcount : l.count a ≤ 1) (hab : a ≠ b) :
    (RecentFiles.add max_items a l).head? = some a
    ∧ (RecentFiles.add max_items a l).length ≤ max_items
    ∧ (RecentFiles.add max_items a l).count a = 1
    ∧ RecentFiles.add max_items a
        (RecentFiles.add max_items b (RecentFiles.add max_items a [])) = [a, b] := by
  obtain ⟨m, rfl⟩ : ∃ m, max_items = m + 2 := ⟨max_items - 2, by omega⟩
  have hfs : (if a ∈ l then l.erase a else l).count a = 0 := by
    by_cases hm : a ∈ l
    · have h1 : l.count a = 1 :=
        Nat.le_antisymm hcount (List.count_pos_iff.mpr hm)
      simp [hm, List.count_erase_self, h1]
    · simp [hm, List.count_eq_zero.mpr hm]
  refine ⟨rfl, ?_, ?_, ?_⟩
  · simp only [RecentFiles.add, List.length_take]
    omega
  · refine Nat.le_antisymm ?_ ?_
    · calc (RecentFiles.add (m + 2) a l).count a
          ≤ (a :: (if a ∈ l then l.erase a else l)).count a :=
            (List.take_sublist _ _).count_le a
        _ = 1 := by rw [List.count_cons_self, hfs]
    · exact List.count_pos_iff.mpr (List.mem_cons_self a _)
  · have t1 : RecentFiles.add (m + 2) a [] = [a] := rfl
    have t2 : RecentFiles.add (m + 2) b [a] = [b, a] := by
      rw [RecentFiles.add, if_neg (by simp [Ne.symm hab])]
      exact List.take_of_length_le (by simp)
    have t3 : RecentFiles.add (m + 2) a [b, a] = [a, b] := by
      rw [RecentFiles.add, if_pos (by simp)]
      rw [List.erase_cons_tail, List.erase_cons_head]
      · exact List.take_of_length_le (by simp)
      · simp [Ne.symm hab]
    rw [t1, t2, t3]

/-- Witness for `recent_add_spec`: default cap 10, paths "A" and "B", a list
already containing "A" once. -/
theorem recent_add_spec_witness :
    (RecentFiles.add 10 "A" ["A", "C"]).head? = some "A"
    ∧ (RecentFiles.add 10 "A" ["A", "C"]).length ≤ 10
    ∧ (RecentFiles.add 10 "A" ["A", "C"]).count "A" = 1
    ∧ RecentFiles.add 10 "A" (RecentFiles.add 10 "B" (RecentFiles.add 10 "A" []))
        = ["A", "B"] :=
  recent_add_spec 10 "A" "B" ["A", "C"] (by decide) (by decide) (by decide)

/-- A settings value (the JSON-representable values appearing in
`DEFAULT_SETTINGS`). -/
inductive SettingValue where
  | str (s : String)
  | bool (b : Bool)
  | nat (n : Nat)
deriving DecidableEq

/-- `DEFAULT_SETTINGS` from `UniversalCompiler.py` (as an association list
in the dict's insertion order). -/
def DEFAULT_SETTINGS : List (String × SettingValue) :=
  [("theme", SettingValue.str "Dark"),
   ("post_build_action", SettingValue.str "None"),
   ("post_build_copy_path", SettingValue.str ""),
   ("show_notifications", SettingValue.bool true),
   ("auto_check_updates", SettingValue.bool true),
   ("max_recent_files", SettingValue.nat 10),
   ("max_history_items", SettingValue.nat 50),
   ("default_profile", SettingValue.str "Default"),
   ("signing_cert_path", SettingValue.str ""),
   ("signing_cert_password", SettingValue.str "")]

/-- Python dict assignment on an association list: update the entry in place
if the key is present, otherwise append it. -/
def assocSet (st : List (String × SettingValue)) (k : String) (v : SettingValue) :
    List (String × SettingValue) :=
  match st with
  | [] => [(k, v)]
  | (k2, v2) :: rest => if k2 = k then (k, v) :: rest else (k2, v2) :: assocSet rest k v

namespace Settings

/-- One iteration of `Settings.load`'s loop: adopt the saved value only when
the key is already in the settings dict. -/
def loadStep (st : List (String × SettingValue)) (kv : String × SettingValue) :
    List (String × SettingValue) :=
  if (st.lookup kv.1).isSome then assocSet st kv.1 kv.2 else st

/-- `Settings.set`: store the value under the key (then persist the whole
dict; persistence is the identity on the stored state). -/
def set (st : List (String × SettingValue)) (k : String) (v : SettingValue) :
    List (String × SettingValue) :=
  assocSet st k v

/-- `Settings.load` as performed by a fresh session (`Settings.__init__`):
start from `DEFAULT_SETTINGS` and adopt each saved entry whose key the
settings dict already has. -/
def load (saved : List (String × SettingValue)) : List (String × SettingValue) :=
  saved.foldl loadStep DEFAULT_SETTINGS

end Settings

/-- `assocSet` stores the value under the key. -/
theorem lookup_assocSet_self (st : List (String × SettingValue)) (k : String)
    (v : SettingValue) : (assocSet st k v).lookup k = some v := by
  induction st with
  | nil => simp [assocSet]
  | cons kv rest ih =>
    obtain ⟨k2, v2⟩ := kv
    by_cases h : k2 = k
    · simp [assocSet, h]
    · simp [assocSet, h, List.lookup, beq_false_of_ne (Ne.symm h), ih]

/-- `assocSet` leaves other keys unchanged. -/
theorem lookup_assocSet_ne (st : List (String × SettingValue)) (k k2 : String)
    (v : SettingValue) (hne : k ≠ k2) :
    (assocSet st k2 v).lookup k = st.lookup k := by
  induction st with
  | nil => simp [assocSet, List.lookup, beq_false_of_ne hne]
  | cons kv rest ih =>
    obtain ⟨k3, v3⟩ := kv
    by_cases h : k3 = k2
    · subst h
      simp [assocSet, List.lookup, beq_false_of_ne hne]
    · simp [assocSet, h, List.lookup, ih]

/-- Folding `loadStep` over entries whose keys differ from `k` does not
change the binding of `k`. -/
theorem lookup_foldl_loadStep_of_not_mem (l : List (String × SettingValue))
    (acc : List (String × SettingValue)) (k : String)
    (hk : ∀ p ∈ l, p.1 ≠ k) :
    (l.foldl Settings.loadStep acc).lookup k = acc.lookup k := by
  induction l generalizing acc with
  | nil => rfl
  | cons kv rest ih =>
    rw [List.foldl_cons, ih _ (fun p hp => hk p (List.mem_cons_of_mem kv hp))]
    unfold Settings.loadStep
    split
    · exact lookup_assocSet_ne acc k kv.1 kv.2 (Ne.symm (hk kv (List.mem_cons_self kv rest)))
    · rfl

/-- Folding `loadStep` over a saved dict with no duplicate keys adopts the
saved value of any key already bound in the accumulator. -/
theorem lookup_foldl_loadStep_of_lookup (saved : List (String × SettingValue))
    (acc : List (String × SettingValue)) (k : String) (v : SettingValue)
    (hnd : (saved.map Prod.fst).Nodup)
    (hacc : (acc.lookup k).isSome) (hval : saved.lookup k = some v) :
    (saved.foldl Settings.loadStep acc).lookup k = some v := by
  induction saved generalizing acc with
  | nil => exact absurd hval (by simp)
  | cons kv rest ih =>
    obtain ⟨k2, v2⟩ := kv
    rw [List.map_cons, List.nodup_cons] at hnd
    by_cases h : k = k2
    · subst h
      rw [List.lookup_cons_self] at hval
      cases hval
      rw [List.foldl_cons]
      rw [lookup_foldl_loadStep_of_not_mem rest _ k
        (fun p hp hpk => hnd.1 (List.mem_map.mpr ⟨p, hp, hpk⟩))]
      unfold Settings.loadStep
      rw [if_pos hacc]
      exact lookup_assocSet_self acc k v
    · rw [List.lookup, beq_false_of_ne h] at hval
      rw [List.foldl_cons]
      refine ih _ hnd.2 ?_ hval
      unfold Settings.loadStep
      split
      · rw [lookup_assocSet_ne acc k k2 v2 h]
        exact hacc
      · exact hacc

/-- Folding `loadStep` never introduces a key the accumulator lacks. -/
theorem lookup_foldl_loadStep_none (l : List (String × SettingValue))
    (acc : List (String × SettingValue)) (k : String)
    (hacc : acc.lookup k = none) :
    (l.foldl Settings.loadStep acc).lookup k = none := by
  induction l generalizing acc with
  | nil => exact hacc
  | cons kv rest ih =>
    rw [List.foldl_cons]
    refine ih _ ?_
    unfold Settings.loadStep
    by_cases h : k = kv.1
    · subst h
      rw [if_neg (by simp [hacc])]
      exact hacc
    · split
      · rw [lookup_assocSet_ne acc k kv.1 kv.2 h]
        exact hacc
      · exact hacc

/-- C10: `Settings.set` stores a value under any key and `lookup` returns it
within the same session; after saving the dict and reloading it in a fresh
session, a key of the default schema keeps its saved value, while a key
outside the schema is silently dropped. -/
theorem settings_roundtrip_spec (st saved : List (String × SettingValue))
    (k : String) (v : SettingValue) (hnd : (saved.map Prod.fst).Nodup) :
    (Settings.set st k v).lookup k = some v
    ∧ ((DEFAULT_SETTINGS.lookup k).isSome → saved.lookup k = some v →
        (Settings.load saved).lookup k = some v)
    ∧ (DEFAULT_SETTINGS.lookup k = none → (Settings.load saved).lookup k = none) := by
  refine ⟨lookup_assocSet_self st k v, ?_, ?_⟩
  · intro hschema hval
    exact lookup_foldl_loadStep_of_lookup saved DEFAULT_SETTINGS k v hnd hschema hval
  · intro hschema
    exact lookup_foldl_loadStep_none saved DEFAULT_SETTINGS k hschema

/-- Witness for `settings_roundtrip_spec`: a saved dict holding a changed
schema key ("theme") and a key outside the schema ("custom_key"); the schema
key survives the reload with its saved value, the foreign key is dropped. -/
theorem settings_roundtrip_spec_witness :
    ((Settings.set DEFAULT_SETTINGS "theme" (SettingValue.str "Light")).lookup "theme"
        = some (SettingValue.str "Light")
      ∧ ((DEFAULT_SETTINGS.lookup "theme").isSome →
          [("theme", SettingValue.str "Light"),
           ("custom_key", SettingValue.str "x")].lookup "theme"
            = some (SettingValue.str "Light") →
          (Settings.load [("theme", SettingValue.str "Light"),
            ("custom_key", SettingValue.str "x")]).lookup "theme"
            = some (SettingValue.str "Light")))
    ∧ (DEFAULT_SETTINGS.lookup "custom_key" = none →
        (Settings.load [("theme", SettingValue.str "Light"),
          ("custom_key", SettingValue.str "x")]).lookup "custom_key" = none) :=
  ⟨⟨(settings_roundtrip_spec DEFAULT_SETTINGS
      [("theme", SettingValue.str "Light"), ("custom_key", SettingValue.str "x")]
      "theme" (SettingValue.str "Light") (by decide)).1,
    (settings_roundtrip_spec DEFAULT_SETTINGS
      [("theme", SettingValue.str "Light"), ("custom_key", SettingValue.str "x")]
      "theme" (SettingValue.str "Light") (by decide)).2.1⟩,
   (settings_roundtrip_spec DEFAULT_SETTINGS
      [("theme", SettingValue.str "Light"), ("custom_key", SettingValue.str "x")]
      "custom_key" (SettingValue.str "x") (by decide)).2.2⟩
